import Mathlib

/-
  Shallow embedding of src/main.py (AI Code Reviewer, a Streamlit app).

  The file models, faithfully to the source:
    * CPython's `json.loads` on `str` input (the C scanner `_json`, which is
      the default): whitespace handling, strings with escapes and surrogate
      pairs, numbers (ints exactly; floats kept as their matched lexeme, since
      no claim depends on float arithmetic), the constants NaN / Infinity /
      -Infinity, arrays, objects with Python-dict duplicate-key semantics,
      the leading-BOM rejection and the trailing-data check.
    * Python `str` values decoded out of JSON are represented as `List Nat`
      of code points (`PyStr`), because Python strings may contain lone
      surrogates that Lean's `Char` cannot carry.
    * the display section of main.py (lines 86-118): `interpret` captures the
      json.loads try/except plus the four `parsed.get` calls; a non-dict
      parse result makes `.get` raise AttributeError, modelled as `.error`.
    * the run-button handler (lines 50-84): empty-input guard via `str.strip`,
      prompt construction, the generate_content call with its try/except,
      modelled with the remote call as an explicit function argument.
    * the sidebar widgets (lines 22-23): a Streamlit slider / number_input
      only ever returns a value inside its [min, max] range; that guarantee
      is modelled by clamping. Python floats are modelled as rationals.
-/

/-- A Python string as its list of code points. Python `str` may hold lone
surrogates (json.loads can produce them from escapes), which Lean `Char`
excludes, so decoded JSON strings are code-point lists. -/
abbrev PyStr := List Nat

/-- Code points of a Lean string literal, for writing `PyStr` constants. -/
def pyOfString (s : String) : PyStr := s.data.map Char.toNat

/-- A Python value produced by `json.loads`: None, bool, int, float, str,
list, dict (as an ordered association list with unique keys, matching
Python dict insertion-order semantics). Floats are kept as the matched
lexeme: no claim inspects float arithmetic. -/
inductive JValue where
  | null : JValue
  | bool (b : Bool) : JValue
  | int (n : Int) : JValue
  | float (lexeme : String) : JValue
  | str (s : PyStr) : JValue
  | arr (items : List JValue) : JValue
  | obj (entries : List (PyStr × JValue)) : JValue

/-- JSON whitespace, the scanner's ' \t\n\r'. -/
def isJsonWs (c : Char) : Bool := c = ' ' || c = '\t' || c = '\n' || c = '\r'

/-- Skip leading JSON whitespace. -/
def skipWs : List Char → List Char
  | [] => []
  | c :: cs => if isJsonWs c then skipWs cs else c :: cs

/-- Value of one hex digit, as the C scanner accepts it. -/
def hexVal (c : Char) : Option Nat :=
  if '0' ≤ c ∧ c ≤ '9' then some (c.toNat - '0'.toNat)
  else if 'a' ≤ c ∧ c ≤ 'f' then some (c.toNat - 'a'.toNat + 10)
  else if 'A' ≤ c ∧ c ≤ 'F' then some (c.toNat - 'A'.toNat + 10)
  else none

/-- Four hex digits of a \uXXXX escape. -/
def hex4 (a b c d : Char) : Option Nat := do
  let x ← hexVal a
  let y ← hexVal b
  let z ← hexVal c
  let w ← hexVal d
  pure ((((x * 16 + y) * 16 + z) * 16) + w)

/-- The single-character escapes of the JSON string grammar. -/
def escChar (c : Char) : Option Nat :=
  if c = '"' then some 34
  else if c = '\\' then some 92
  else if c = '/' then some 47
  else if c = 'b' then some 8
  else if c = 'f' then some 12
  else if c = 'n' then some 10
  else if c = 'r' then some 13
  else if c = 't' then some 9
  else none

/-- Body of a JSON string after the opening quote, as the CPython scanner
reads it in strict mode: raw control characters are rejected, escapes are
decoded, and a \uXXXX high surrogate followed by a \uXXXX low surrogate is
combined; other surrogates pass through lone. Fuel makes totality obvious;
each recursive call consumes input, so input-length fuel suffices. -/
def parseStringBody : Nat → List Char → Option (PyStr × List Char)
  | 0, _ => none
  | _, [] => none
  | fuel + 1, c :: cs =>
    if c = '"' then some ([], cs)
    else if c.toNat < 32 then none
    else if c = '\\' then
      match cs with
      | 'u' :: a :: b :: d :: e :: rest =>
        match hex4 a b d e with
        | none => none
        | some n =>
          if 0xD800 ≤ n ∧ n ≤ 0xDBFF then
            match rest with
            | '\\' :: 'u' :: a2 :: b2 :: d2 :: e2 :: rest2 =>
              match hex4 a2 b2 d2 e2 with
              | none => none
              | some m =>
                if 0xDC00 ≤ m ∧ m ≤ 0xDFFF then
                  match parseStringBody fuel rest2 with
                  | none => none
                  | some (tail, r) =>
                    some ((0x10000 + (n - 0xD800) * 1024 + (m - 0xDC00)) :: tail, r)
                else
                  match parseStringBody fuel rest with
                  | none => none
                  | some (tail, r) => some (n :: tail, r)
            | _ =>
              match parseStringBody fuel rest with
              | none => none
              | some (tail, r) => some (n :: tail, r)
          else
            match parseStringBody fuel rest with
            | none => none
            | some (tail, r) => some (n :: tail, r)
      | e :: rest =>
        match escChar e with
        | none => none
        | some n =>
          match parseStringBody fuel rest with
          | none => none
          | some (tail, r) => some (n :: tail, r)
      | [] => none
    else
      match parseStringBody fuel cs with
      | none => none
      | some (tail, r) => some (c.toNat :: tail, r)

/-- Greedily take decimal digits. -/
def digitsOf : List Char → List Char × List Char
  | [] => ([], [])
  | c :: cs =>
    if '0' ≤ c ∧ c ≤ '9' then
      let (ds, r) := digitsOf cs
      (c :: ds, r)
    else ([], c :: cs)

/-- Numeric value of a digit run. -/
def natOfDigits (ds : List Char) : Nat :=
  ds.foldl (fun n c => n * 10 + (c.toNat - '0'.toNat)) 0

/-- Optional fraction part: '.' followed by at least one digit, else nothing,
exactly like the optional group of the scanner's number pattern. Returns the
matched characters and the rest. -/
def parseFrac : List Char → List Char × List Char
  | '.' :: rest =>
    match digitsOf rest with
    | ([], _) => ([], '.' :: rest)
    | (ds, r) => ('.' :: ds, r)
  | cs => ([], cs)

/-- Optional exponent part: e/E, optional sign, at least one digit. -/
def parseExp : List Char → List Char × List Char
  | [] => ([], [])
  | c :: rest =>
    if c = 'e' ∨ c = 'E' then
      match rest with
      | [] => ([], [c])
      | s :: rest2 =>
        if s = '+' ∨ s = '-' then
          match digitsOf rest2 with
          | ([], _) => ([], c :: s :: rest2)
          | (ds, r) => (c :: s :: ds, r)
        else
          match digitsOf (s :: rest2) with
          | ([], _) => ([], c :: s :: rest2)
          | (ds, r) => (c :: ds, r)
    else ([], c :: rest)

/-- A JSON number at the head of the input, following the scanner's pattern:
optional '-', then '0' or a nonzero-led digit run, then optional fraction
and exponent. A fraction or exponent makes it a Python float (kept as its
lexeme); otherwise it is an exact int. -/
def parseNumber (cs : List Char) : Option (JValue × List Char) :=
  let neg : Bool := cs.head? = some '-'
  let cs1 := if neg then cs.tail else cs
  match cs1 with
  | [] => none
  | c :: rest =>
    if c = '0' ∨ ('1' ≤ c ∧ c ≤ '9') then
      let (ds, r1) :=
        if c = '0' then (['0'], rest)
        else
          let (t, r) := digitsOf rest
          (c :: t, r)
      let (fr, r2) := parseFrac r1
      let (ex, r3) := parseExp r2
      if fr.isEmpty ∧ ex.isEmpty then
        let n : Int := Int.ofNat (natOfDigits ds)
        some (.int (if neg then -n else n), r3)
      else
        some (.float (String.mk ((if neg then ['-'] else []) ++ ds ++ fr ++ ex)), r3)
    else none

/-- Insert into a Python dict built from parsed pairs: an existing key keeps
its position and takes the new value, a new key is appended. -/
def dictInsert : List (PyStr × JValue) → PyStr → JValue → List (PyStr × JValue)
  | [], k, v => [(k, v)]
  | (k0, v0) :: rest, k, v =>
    if k0 = k then (k0, v) :: rest else (k0, v0) :: dictInsert rest k v

/-- Python `dict.get(key)` without a default: `some` value or `none`. -/
def dictGet : List (PyStr × JValue) → PyStr → Option JValue
  | [], _ => none
  | (k0, v) :: rest, k => if k0 = k then some v else dictGet rest k

/-- Python `dict.get(key, default)`. -/
def dictGetD (kvs : List (PyStr × JValue)) (k : PyStr) (dflt : JValue) : JValue :=
  (dictGet kvs k).getD dflt

mutual

/-- One JSON value at the head of the input (whitespace already skipped by
the caller, as in the scanner): string, object, array, the literal names,
the float constants, or a number. -/
def parseValue : Nat → List Char → Option (JValue × List Char)
  | 0, _ => none
  | fuel + 1, cs =>
    match cs with
    | [] => none
    | '"' :: rest =>
      match parseStringBody (rest.length + 1) rest with
      | none => none
      | some (s, r) => some (.str s, r)
    | '{' :: rest => parseObjBody fuel rest
    | '[' :: rest => parseArrBody fuel rest
    | 'n' :: 'u' :: 'l' :: 'l' :: rest => some (.null, rest)
    | 't' :: 'r' :: 'u' :: 'e' :: rest => some (.bool true, rest)
    | 'f' :: 'a' :: 'l' :: 's' :: 'e' :: rest => some (.bool false, rest)
    | 'N' :: 'a' :: 'N' :: rest => some (.float "NaN", rest)
    | 'I' :: 'n' :: 'f' :: 'i' :: 'n' :: 'i' :: 't' :: 'y' :: rest =>
      some (.float "Infinity", rest)
    | '-' :: 'I' :: 'n' :: 'f' :: 'i' :: 'n' :: 'i' :: 't' :: 'y' :: rest =>
      some (.float "-Infinity", rest)
    | c :: _ =>
      if c = '-' ∨ ('0' ≤ c ∧ c ≤ '9') then parseNumber cs else none

/-- Object body after '{': whitespace, then '}' or a quoted first key. -/
def parseObjBody : Nat → List Char → Option (JValue × List Char)
  | 0, _ => none
  | fuel + 1, cs =>
    match skipWs cs with
    | '}' :: rest => some (.obj [], rest)
    | '"' :: rest => parseMembers fuel rest []
    | _ => none

/-- Members of an object, entered just after the opening quote of a key;
`acc` is the dict built so far. After each pair: '}' ends, ',' expects the
next quoted key, anything else fails — exactly the scanner's loop. -/
def parseMembers : Nat → List Char → List (PyStr × JValue) →
    Option (JValue × List Char)
  | 0, _, _ => none
  | fuel + 1, cs, acc =>
    match parseStringBody (cs.length + 1) cs with
    | none => none
    | some (key, r1) =>
      match skipWs r1 with
      | ':' :: r2 =>
        match parseValue fuel (skipWs r2) with
        | none => none
        | some (v, r3) =>
          let acc2 := dictInsert acc key v
          match skipWs r3 with
          | '}' :: r4 => some (.obj acc2, r4)
          | ',' :: r4 =>
            match skipWs r4 with
            | '"' :: r5 => parseMembers fuel r5 acc2
            | _ => none
          | _ => none
      | _ => none

/-- Array body after '[': whitespace, then ']' or the first element. -/
def parseArrBody : Nat → List Char → Option (JValue × List Char)
  | 0, _ => none
  | fuel + 1, cs =>
    match skipWs cs with
    | ']' :: rest => some (.arr [], rest)
    | cs1 => parseArrItems fuel cs1 []

/-- Elements of an array, entered at an element start (whitespace skipped);
`acc` holds prior elements reversed. -/
def parseArrItems : Nat → List Char → List JValue → Option (JValue × List Char)
  | 0, _, _ => none
  | fuel + 1, cs, acc =>
    match parseValue fuel cs with
    | none => none
    | some (v, r1) =>
      match skipWs r1 with
      | ']' :: r2 => some (.arr (v :: acc).reverse, r2)
      | ',' :: r2 => parseArrItems fuel (skipWs r2) (v :: acc)
      | _ => none

end

/-- Python `json.loads` on a `str`: reject a leading BOM, skip surrounding
whitespace, read one value, and reject trailing data. `none` is any
`ValueError` the decoder raises. Fuel 2·length + 4 over-approximates the
call depth, which consumes at least one character every two nested calls. -/
def jsonParse (s : String) : Option JValue :=
  if s.data.head? = some (Char.ofNat 0xFEFF) then none
  else
    match parseValue (2 * s.data.length + 4) (skipWs s.data) with
    | none => none
    | some (v, rest) => if skipWs rest = [] then some v else none

/-- The outcome of the response-handling section of main.py: either the
four values the display section reads out of the parsed dict (lines
96/99/110/114), or the raw text shown when json.loads failed (lines 90-92). -/
inductive ReviewResult where
  | structured (summary issues suggestions fixedCode : JValue)
  | unparsed (rawText : String)

/-- Lines 86-96 of main.py: try json.loads; on failure show the raw text and
stop (the `unparsed` result); on success run `parsed.get` for the four keys
with their literal defaults. `parsed.get` exists only on dicts, so any other
parse result raises AttributeError, modelled as `.error`. -/
def interpret (text : String) : Except String ReviewResult :=
  match jsonParse text with
  | none => .ok (.unparsed text)
  | some (.obj kvs) =>
    .ok (.structured
      (dictGetD kvs (pyOfString "summary") (.str []))
      (dictGetD kvs (pyOfString "issues") (.arr []))
      (dictGetD kvs (pyOfString "suggestions") (.arr []))
      (dictGetD kvs (pyOfString "fixed_code") (.str [])))
  | some _ => .error "AttributeError"

/-- The three options of the Action radio button (line 46 of main.py). -/
inductive ReviewAction where
  | explain : ReviewAction
  | suggest : ReviewAction
  | patch : ReviewAction

/-- The label of each radio option, the string Python interpolates. -/
def actionLabel : ReviewAction → String
  | .explain => "Explain code"
  | .suggest => "Suggest improvements"
  | .patch => "Return patched file (apply fixes)"

/-- The fixed system instruction of lines 55-64 of main.py, with Python's
adjacent string literals concatenated the same way. -/
def systemInstructionStr : String :=
  "You are an expert senior Python developer and code reviewer. " ++
  "When given Python source code, return a **single valid JSON object** with keys:\n" ++
  "  - summary: short (1-3 lines) description of what the code does\n" ++
  "  - issues: a list of objects \x7bline_start, line_end, severity, title, explanation, fix\x7d\n" ++
  "  - suggestions: short bullet-list of higher-level suggestions\n" ++
  "  - fixed_code: the full file content after applying the fixes (if possible)\n\n" ++
  "Requirements: respond **ONLY** with valid JSON (no extra commentary). " ++
  "Include line numbers where possible and short code snippets under \x27fix\x27."

/-- The f-string of line 66 of main.py. -/
def userPrompt (action : ReviewAction) (code : String) : String :=
  "Action: " ++ actionLabel action ++ "\n\nCode:\n```python\n" ++ code ++ "\n```"

/-- The request builder of the spec: the pair (systemInstruction, userMessage)
that lines 55-68 of main.py assemble. -/
def build (action : ReviewAction) (code : String) : String × String :=
  (systemInstructionStr, userPrompt action code)

/-- Python `str.isspace` for a single character (the set `str.strip()` with
no argument removes): ASCII whitespace and the Unicode space/line/paragraph
separators and whitespace-class controls. -/
def isPySpace (c : Char) : Bool :=
  let n := c.toNat
  (9 ≤ n && n ≤ 13) || n = 32 || (28 ≤ n && n ≤ 31) || n = 0x85 || n = 0xA0 ||
    n = 0x1680 || (0x2000 ≤ n && n ≤ 0x200A) || n = 0x2028 || n = 0x2029 ||
    n = 0x202F || n = 0x205F || n = 0x3000

/-- Python `str.strip()` with no argument. -/
def pyStrip (s : String) : String :=
  String.mk (((s.data.dropWhile isPySpace).reverse.dropWhile isPySpace).reverse)

/-- The outbound request of lines 72-79 of main.py: model name, the contents
list [system_instruction, user_prompt], and the GenerateContentConfig fields.
The Python floats are modelled as rationals. -/
structure ReviewRequest where
  model : String
  contents : List String
  temperature : Rat
  maxOutputTokens : Int
  responseMimeType : String

/-- The request main.py hands to client.models.generate_content, assembled
from the widget values and the built prompt (lines 66-79). `float(...)` and
`int(...)` on values of the right type are identities. -/
def mkRequest (modelName : String) (action : ReviewAction) (code : String)
    (t : Rat) (mx : Int) : ReviewRequest :=
  { model := modelName
    contents := [(build action code).1, (build action code).2]
    temperature := t
    maxOutputTokens := mx
    responseMimeType := "application/json" }

/-- A Streamlit slider only ever returns a value inside its [min, max]
range; the guarantee is modelled by clamping the requested value. -/
def sliderVal (lo hi x : Rat) : Rat := max lo (min hi x)

/-- A Streamlit number_input likewise returns a value inside [min, max]. -/
def numberInputVal (lo hi x : Int) : Int := max lo (min hi x)

/-- What one click of the Run button produces (lines 50-118 of main.py):
the empty-input warning, the API-failure error (st.error + st.stop before
any parsing), an uncaught Python exception from the display section, or a
displayed result. -/
inductive InvocationOutcome where
  | emptyWarning (msg : String) : InvocationOutcome
  | apiError (msg : String) : InvocationOutcome
  | pyException (msg : String) : InvocationOutcome
  | displayed (r : ReviewResult) : InvocationOutcome

/-- The run-button handler, lines 50-118 of main.py, with the remote
generate_content call passed in as a function (its try/except is the
match on its `Except` result). -/
def runInvocation (modelName : String) (action : ReviewAction) (code : String)
    (t : Rat) (mx : Int) (remote : ReviewRequest → Except String String) :
    InvocationOutcome :=
  if pyStrip code = "" then .emptyWarning "Paste some Python code first."
  else
    match remote (mkRequest modelName action code t mx) with
    | .error e => .apiError ("API call failed: " ++ e)
    | .ok text =>
      match interpret text with
      | .error m => .pyException m
      | .ok r => .displayed r

/-- What the issue loop of lines 103-107 of main.py reads out of one issue
entry: `iss.get` with the literal defaults of the source ('(no title)' for
title, '' for explanation, no default — hence `Option` — for line_start,
line_end, severity and fix). -/
structure RenderedIssue where
  title : JValue
  lineStart : Option JValue
  lineEnd : Option JValue
  severity : Option JValue
  explanation : JValue
  fix : Option JValue

/-- One iteration of the issue display loop: `.get` exists only on dicts,
so a non-dict entry raises AttributeError. -/
def renderIssue (iss : JValue) : Except String RenderedIssue :=
  match iss with
  | .obj kvs =>
    .ok
      { title := dictGetD kvs (pyOfString "title") (.str (pyOfString "(no title)"))
        lineStart := dictGet kvs (pyOfString "line_start")
        lineEnd := dictGet kvs (pyOfString "line_end")
        severity := dictGet kvs (pyOfString "severity")
        explanation := dictGetD kvs (pyOfString "explanation") (.str [])
        fix := dictGet kvs (pyOfString "fix") }
  | _ => .error "AttributeError"

/-- Two successive runs of the response interpreter on the same text, for
the idempotence property. -/
def interpretTwice (text : String) :
    Except String ReviewResult × Except String ReviewResult :=
  (interpret text, interpret text)

/-- Whether `pat` matches at the head of `s`. -/
def leadEq : List Char → List Char → Bool
  | [], _ => true
  | _ :: _, [] => false
  | p :: ps, c :: cs => p = c && leadEq ps cs

/-- Whether `pat` occurs somewhere in `s`. -/
def hasSubAux (pat : List Char) : List Char → Bool
  | [] => leadEq pat []
  | c :: cs => leadEq pat (c :: cs) || hasSubAux pat cs

/-- Substring occurrence on strings. -/
def hasSub (s pat : String) : Bool := hasSubAux pat.data s.data

/-- String data of an append is the append of the data. -/
theorem string_data_append (s t : String) : (s ++ t).data = s.data ++ t.data := by
  cases s
  cases t
  rfl

-- sanity checks of the parser model against json.loads behaviour
example : jsonParse "" = none := rfl
example : jsonParse " 42 " = some (.int 42) := rfl
example : jsonParse "-0" = some (.int 0) := rfl
example : jsonParse "01" = none := rfl
example : jsonParse "1.5e3" = some (.float "1.5e3") := rfl
example : jsonParse "true" = some (.bool true) := rfl
example : jsonParse "not json" = none := rfl
example : jsonParse "\x7b\x7d" = some (.obj []) := rfl
example : jsonParse " \x7b \"a\" : [1, null] \x7d " =
    some (.obj [(pyOfString "a", .arr [.int 1, .null])]) := rfl
example : jsonParse "\x7b\"a\":1,\"a\":2\x7d" =
    some (.obj [(pyOfString "a", .int 2)]) := rfl
example : jsonParse "\"h\\u00e9\\n\"" = some (.str [104, 0xE9, 10]) := rfl
example : jsonParse "\"\\ud83d\\ude00\"" = some (.str [0x1F600]) := rfl
example : jsonParse "[1," = none := rfl
example : jsonParse "1 1" = none := rfl

/-- Claim C1: for every input string that parses as a JSON object whose keys
are a subset of summary / issues / suggestions / fixed_code, the response
interpretation returns a Structured result whose fields are the dict lookups
with their defaults, so each missing key defaults (summary and fixed_code to
the empty string, issues and suggestions to the empty list), and the
interpretation does not throw (the result is `.ok`). -/
theorem claim_C1 (s : String) (kvs : List (PyStr × JValue))
    (hp : jsonParse s = some (.obj kvs))
    (_hsub : ∀ kv ∈ kvs, kv.1 = pyOfString "summary" ∨ kv.1 = pyOfString "issues" ∨
      kv.1 = pyOfString "suggestions" ∨ kv.1 = pyOfString "fixed_code") :
    interpret s = .ok (.structured
        (dictGetD kvs (pyOfString "summary") (.str []))
        (dictGetD kvs (pyOfString "issues") (.arr []))
        (dictGetD kvs (pyOfString "suggestions") (.arr []))
        (dictGetD kvs (pyOfString "fixed_code") (.str []))) ∧
      (dictGet kvs (pyOfString "summary") = none →
        dictGetD kvs (pyOfString "summary") (.str []) = .str []) ∧
      (dictGet kvs (pyOfString "issues") = none →
        dictGetD kvs (pyOfString "issues") (.arr []) = .arr []) ∧
      (dictGet kvs (pyOfString "suggestions") = none →
        dictGetD kvs (pyOfString "suggestions") (.arr []) = .arr []) ∧
      (dictGet kvs (pyOfString "fixed_code") = none →
        dictGetD kvs (pyOfString "fixed_code") (.str []) = .str []) := by
  refine ⟨?_, ?_, ?_, ?_, ?_⟩
  · simp [interpret, hp]
  all_goals intro h
  all_goals simp [dictGetD, h]

/-- Witness for C1 at the concrete input "\x7b\x7d" (the empty JSON object):
all four keys are missing and all four fields come out defaulted. -/
theorem claim_C1_witness :
    jsonParse "\x7b\x7d" = some (.obj []) ∧
      interpret "\x7b\x7d" = .ok (.structured (.str []) (.arr []) (.arr []) (.str [])) := by
  refine ⟨rfl, ?_⟩
  exact (claim_C1 "\x7b\x7d" [] rfl (by intro kv hkv; exact absurd hkv (List.not_mem_nil kv))).1

/-- Claim C2: for every input string that is not valid JSON, the response
interpretation returns an Unparsed result carrying the raw text unchanged;
the parse failure is recovered locally (the result is `.ok`, not an error). -/
theorem claim_C2 (s : String) (h : jsonParse s = none) :
    interpret s = .ok (.unparsed s) := by
  simp [interpret, h]

/-- Witness for C2 at the concrete input "not json". -/
theorem claim_C2_witness :
    jsonParse "not json" = none ∧ interpret "not json" = .ok (.unparsed "not json") :=
  ⟨rfl, claim_C2 "not json" rfl⟩

/-- Claim C3: for every submitted sourceCode that is empty or whitespace-only
(`str.strip` gives the empty string), one click produces the warning and no
remote call is made: the outcome is the warning for every remote function,
and it is the same whatever the remote function would do, so nothing of the
invocation depends on a call being issued. -/
theorem claim_C3 (modelName : String) (action : ReviewAction) (code : String)
    (t : Rat) (mx : Int) (h : pyStrip code = "")
    (remote remote2 : ReviewRequest → Except String String) :
    runInvocation modelName action code t mx remote =
        .emptyWarning "Paste some Python code first." ∧
      runInvocation modelName action code t mx remote =
        runInvocation modelName action code t mx remote2 := by
  constructor
  · simp [runInvocation, h]
  · simp [runInvocation, h]

/-- Witness for C3 at the whitespace-only input " \n\t ". -/
theorem claim_C3_witness :
    pyStrip " \n\t " = "" ∧
      runInvocation "gemini-1.5-flash" .explain " \n\t " 0 800 (fun _ => .ok "x") =
        .emptyWarning "Paste some Python code first." := by
  refine ⟨rfl, ?_⟩
  exact (claim_C3 "gemini-1.5-flash" .explain " \n\t " 0 800 rfl (fun _ => .ok "x")
    (fun _ => .ok "x")).1

/-- Claim C4: for all non-empty sourceCode and any of the three actions, the
built userMessage contains the sourceCode verbatim and contains the chosen
action's label, as contiguous substrings. -/
theorem claim_C4 (action : ReviewAction) (code : String) (_h : pyStrip code ≠ "") :
    (∃ pre post, ((build action code).2).data = pre ++ code.data ++ post) ∧
      ∃ pre post, ((build action code).2).data = pre ++ (actionLabel action).data ++ post := by
  constructor
  · exact ⟨("Action: " ++ actionLabel action ++ "\n\nCode:\n```python\n").data, "\n```".data,
      by simp [build, userPrompt, string_data_append, List.append_assoc]⟩
  · exact ⟨("Action: ").data, ("\n\nCode:\n```python\n" ++ code ++ "\n```").data,
      by simp [build, userPrompt, string_data_append, List.append_assoc]⟩

/-- Witness for C4 at the non-empty code "x" and the Explain action. -/
theorem claim_C4_witness :
    pyStrip "x" ≠ "" ∧
      ∃ pre post, ((build .explain "x").2).data = pre ++ "x".data ++ post := by
  refine ⟨by decide, ?_⟩
  exact (claim_C4 .explain "x" (by decide)).1

/-- Claim C5: the concrete input yields a Structured result with empty
summary, exactly the one issue, empty suggestions and empty fixed code; that
issue renders with title "bug" and severity "high" present and with
line_start, line_end, explanation and fix absent or empty; and in general
every dict issue entry renders without throwing, each missing field coming
out as none, the empty string, or the "(no title)" placeholder. -/
theorem claim_C5 :
    (interpret "\x7b\"issues\":[\x7b\"title\":\"bug\",\"severity\":\"high\"\x7d]\x7d" =
      .ok (.structured (.str [])
        (.arr [.obj [(pyOfString "title", .str (pyOfString "bug")),
          (pyOfString "severity", .str (pyOfString "high"))]])
        (.arr []) (.str []))) ∧
    (renderIssue (.obj [(pyOfString "title", .str (pyOfString "bug")),
        (pyOfString "severity", .str (pyOfString "high"))]) =
      .ok { title := .str (pyOfString "bug"), lineStart := none, lineEnd := none,
            severity := some (.str (pyOfString "high")), explanation := .str [],
            fix := none }) ∧
    ∀ kvs : List (PyStr × JValue), ∃ r, renderIssue (.obj kvs) = .ok r ∧
      (dictGet kvs (pyOfString "title") = none → r.title = .str (pyOfString "(no title)")) ∧
      (dictGet kvs (pyOfString "line_start") = none → r.lineStart = none) ∧
      (dictGet kvs (pyOfString "line_end") = none → r.lineEnd = none) ∧
      (dictGet kvs (pyOfString "severity") = none → r.severity = none) ∧
      (dictGet kvs (pyOfString "explanation") = none → r.explanation = .str []) ∧
      (dictGet kvs (pyOfString "fix") = none → r.fix = none) := by
  refine ⟨rfl, rfl, ?_⟩
  intro kvs
  refine ⟨_, rfl, ?_, ?_, ?_, ?_, ?_, ?_⟩ <;> intro h <;> simp [renderIssue, dictGetD, h]

/-- Witness for C5 at the empty issue dict: every field is missing and every
field renders as its empty value or placeholder. -/
theorem claim_C5_witness :
    ∃ r, renderIssue (.obj ([] : List (PyStr × JValue))) = .ok r ∧
      r.title = .str (pyOfString "(no title)") ∧ r.lineStart = none ∧
      r.lineEnd = none ∧ r.severity = none ∧ r.explanation = .str [] ∧ r.fix = none := by
  obtain ⟨r, hr, h1, h2, h3, h4, h5, h6⟩ := claim_C5.2.2 []
  exact ⟨r, hr, h1 rfl, h2 rfl, h3 rfl, h4 rfl, h5 rfl, h6 rfl⟩

set_option maxRecDepth 40000 in
/-- Claim C6: for every action and every sourceCode the produced
systemInstruction is one and the same fixed string, and that string names
the required single-JSON-object output and all four keys. -/
theorem claim_C6 (action : ReviewAction) (code : String) :
    (build action code).1 = systemInstructionStr ∧
      hasSub systemInstructionStr "single valid JSON object" = true ∧
      hasSub systemInstructionStr "summary" = true ∧
      hasSub systemInstructionStr "issues" = true ∧
      hasSub systemInstructionStr "suggestions" = true ∧
      hasSub systemInstructionStr "fixed_code" = true ∧
      hasSub systemInstructionStr "respond **ONLY** with valid JSON" = true :=
  ⟨rfl, rfl, rfl, rfl, rfl, rfl, rfl⟩

/-- Claim C7: if the remote call itself fails, the invocation surfaces the
API-failure error message and halts: the outcome is `apiError`, which
carries no ReviewResult, so the response interpretation is never reached
and no result is produced. -/
theorem claim_C7 (modelName : String) (action : ReviewAction) (code : String)
    (t : Rat) (mx : Int) (e : String) (h : pyStrip code ≠ "") :
    runInvocation modelName action code t mx (fun _ => .error e) =
      .apiError ("API call failed: " ++ e) := by
  simp [runInvocation, h]

/-- Witness for C7 at concrete inputs with a failing remote call. -/
theorem claim_C7_witness :
    pyStrip "x = 1" ≠ "" ∧
      runInvocation "gemini-1.5-flash" .explain "x = 1" 0 800 (fun _ => .error "boom") =
        .apiError ("API call failed: " ++ "boom") :=
  ⟨by decide, claim_C7 "gemini-1.5-flash" .explain "x = 1" 0 800 "boom" (by decide)⟩

/-- Claim C8: every request built from the widget values carries a
temperature within [0, 3/2] (the slider's bounds 0.0 and 1.5), a
maxOutputTokens within [128, 8192] (the number input's bounds), and the
response format "application/json". -/
theorem claim_C8 (modelName : String) (action : ReviewAction) (code : String)
    (x : Rat) (m : Int) :
    0 ≤ (mkRequest modelName action code (sliderVal 0 (3 / 2) x)
        (numberInputVal 128 8192 m)).temperature ∧
      (mkRequest modelName action code (sliderVal 0 (3 / 2) x)
        (numberInputVal 128 8192 m)).temperature ≤ 3 / 2 ∧
      128 ≤ (mkRequest modelName action code (sliderVal 0 (3 / 2) x)
        (numberInputVal 128 8192 m)).maxOutputTokens ∧
      (mkRequest modelName action code (sliderVal 0 (3 / 2) x)
        (numberInputVal 128 8192 m)).maxOutputTokens ≤ 8192 ∧
      (mkRequest modelName action code (sliderVal 0 (3 / 2) x)
        (numberInputVal 128 8192 m)).responseMimeType = "application/json" := by
  refine ⟨?_, ?_, ?_, ?_, rfl⟩
  · exact le_max_left _ _
  · exact max_le (by norm_num) (min_le_left _ _)
  · exact le_max_left _ _
  · exact max_le (by norm_num) (min_le_left _ _)

/-- Claim C9: the response interpretation is a pure deterministic function
of its input text: two successive applications to the same text yield equal
results. -/
theorem claim_C9 (s : String) : (interpretTwice s).1 = (interpretTwice s).2 := rfl

/-- Claim C10: valid JSON that is not an object — the number 42 and the
array [1, 2] — parses, and the subsequent `.get` key lookup raises, so the
interpretation produces neither a Structured nor an Unparsed result. -/
theorem claim_C10 :
    jsonParse "42" = some (.int 42) ∧
      interpret "42" = .error "AttributeError" ∧
      jsonParse "[1, 2]" = some (.arr [.int 1, .int 2]) ∧
      interpret "[1, 2]" = .error "AttributeError" :=
  ⟨rfl, rfl, rfl, rfl⟩
